import Mathlib

/-!
Shallow embedding of `build_all.py`, a build-matrix orchestrator: hardware
config discovery (`get_hw_configs`), the per-config build state machine
(`build_target`), terminal status teardown (`clear_status`), and the
orchestrator loop (`main`).

External effects are abstracted into explicit data:
* a `World` gives the exit code of each spawned command and the existence of
  each file path;
* `build_target` returns the ordered trace of its observable effects
  (commands run, files copied) together with its boolean outcome, mirroring
  the Python function's subprocess calls, copies and return value;
* `clear_status` is embedded as the ordered list of the operations it
  performs on the spinner thread and the terminal.
-/

namespace BuildAll

/-- One discovered hardware configuration: the dict
`{'name': hw_name, 'target': hw_target, 'file': f}` built in
`get_hw_configs`. -/
structure HwConfig where
  name : String
  target : String
  file : String
deriving DecidableEq, Repr

/-- Result of attempting to read and scan one candidate header file: either
the two optional regex matches (`HW_NAME`, `HW_TARGET`, first occurrence,
`None` when absent), or a raised exception. This is the boundary at which
the filesystem and `re.search` are abstracted. -/
inductive FileRead where
  | ok (name_match target_match : Option String)
  | err (msg : String)
deriving DecidableEq, Repr

/-- Python truthiness of `hw_name` / `hw_target` in
`if hw_name and hw_target:`: `None` and the empty string are falsy. -/
def truthy : Option String → Bool
  | none => false
  | some s => !(s == "")

/-- The per-file body of the `get_hw_configs` loop: a raised exception is
caught and the file skipped; otherwise the file contributes a config exactly
when both extracted values are truthy. -/
def parse_entry : String × FileRead → Option HwConfig
  | (_, FileRead.err _) => none
  | (f, FileRead.ok nm tm) =>
      if truthy nm && truthy tm then
        some ⟨nm.getD "", tm.getD "", f⟩
      else
        none

/-- The sort key comparison used by `configs.sort(key=lambda x: (x['target'],
x['name']))`: Python tuple comparison, i.e. lexicographic on
`(target, name)` with case-sensitive (code-point) string order. -/
def configLe (a b : HwConfig) : Prop :=
  a.target < b.target ∨ (a.target = b.target ∧ a.name ≤ b.name)

instance : DecidableRel configLe := fun a b => by
  unfold configLe; infer_instance

/-- Embedding of `get_hw_configs`: scan the candidate files, keep those with both
declarations present and non-empty, and sort by `(target, name)`.
Python's `list.sort` is a stable sort by the key; a stable insertion sort by
the same total preorder computes the same list. -/
def get_hw_configs (files : List (String × FileRead)) : List HwConfig :=
  List.insertionSort configLe (files.filterMap parse_entry)

/-- Constant `build_dir = "build"` in `build_target`. -/
def build_dir : String := "build"

/-- POSIX `os.path.join` for relative components, as used throughout. -/
def path_join (a b : String) : String := a ++ "/" ++ b

/-- Path `os.path.join(build_dir, "CMakeCache.txt")`. -/
def cmake_cache : String := path_join build_dir "CMakeCache.txt"

/-- Path `os.path.join(build_dir, "vesc_express.bin")`. -/
def src_bin : String := path_join build_dir "vesc_express.bin"

/-- Path `os.path.join(build_dir, "bootloader", "bootloader.bin")`. -/
def src_boot : String := path_join (path_join build_dir "bootloader") "bootloader.bin"

/-- Path `os.path.join(build_dir, "partition_table", "partition-table.bin")`. -/
def src_pt : String := path_join (path_join build_dir "partition_table") "partition-table.bin"

/-- The external environment a single `build_target` call observes: the exit
code each command would return, and which paths exist on disk. -/
structure World where
  exitCode : List String → Int
  fileExists : String → Bool

/-- An observable effect of `build_target`: running a subprocess
(`run_streamed(cmd)`) or copying a file (`shutil.copy2(src, dst)`). -/
inductive Event where
  | run (cmd : List String)
  | copy (src dst : String)
deriving DecidableEq, Repr

/-- Freshness test `is_fresh = not os.path.exists(cmake_cache)`. -/
def is_fresh (w : World) : Bool := !(w.fileExists cmake_cache)

/-- The `cmd_base` argument vector: with `-DIDF_TARGET` on a fresh build
directory, without it otherwise. -/
def cmd_base (c : HwConfig) (fresh : Bool) : List String :=
  if fresh then
    ["idf.py", "-B", build_dir, "-DIDF_TARGET=" ++ c.target, "-DHW_NAME=" ++ c.name]
  else
    ["idf.py", "-B", build_dir, "-DHW_NAME=" ++ c.name]

/-- The artifact copy block of `build_target` (the `try:` suite): check and
copy the three artifacts in order, stopping at the first missing one (the
raised `FileNotFoundError` is caught and the function returns `False`).
Returns the copy events that happened and whether the block completed. -/
def copy_artifacts (w : World) (output_dir : String) (name : String) :
    List Event × Bool :=
  let target_output_dir := path_join output_dir name
  if !(w.fileExists src_bin) then ([], false)
  else
    let e1 := Event.copy src_bin (path_join target_output_dir "vesc_express.bin")
    if !(w.fileExists src_boot) then ([e1], false)
    else
      let e2 := Event.copy src_boot (path_join target_output_dir "bootloader.bin")
      if !(w.fileExists src_pt) then ([e1, e2], false)
      else
        ([e1, e2, Event.copy src_pt (path_join target_output_dir "partition-table.bin")], true)

/-- Embedding of `build_target(config, output_dir, prev_target, ...)`: the state-machine
decision (fresh / re-target / straight to build), the build command, and the
artifact verification and copy, returning the trace of events together with
the boolean result. -/
def build_target (c : HwConfig) (output_dir : String) (prev_target : Option String)
    (w : World) : List Event × Bool :=
  let fresh := is_fresh w
  let base := cmd_base c fresh
  if fresh = false ∧ prev_target ≠ some c.target then
    let st_cmd := base ++ ["set-target", c.target]
    if w.exitCode st_cmd != 0 then
      ([Event.run st_cmd], false)
    else
      let bcmd := base ++ ["build"]
      if w.exitCode bcmd == 0 then
        let ce := copy_artifacts w output_dir c.name
        ([Event.run st_cmd, Event.run bcmd] ++ ce.1, ce.2)
      else
        ([Event.run st_cmd, Event.run bcmd], false)
  else
    let bcmd := base ++ ["build"]
    if w.exitCode bcmd == 0 then
      let ce := copy_artifacts w output_dir c.name
      ([Event.run bcmd] ++ ce.1, ce.2)
    else
      ([Event.run bcmd], false)

/-- An event is a re-target command: a spawned command whose argument vector
contains the `set-target` subcommand. -/
def isRetargetCmd : Event → Bool
  | Event.run cmd => decide ("set-target" ∈ cmd)
  | _ => false

/-- An event is a build command: a spawned command whose last argument is the
`build` subcommand (and which is not a re-target command). -/
def isBuildCmd : Event → Bool
  | Event.run cmd => decide (cmd.getLast? = some "build" ∧ "set-target" ∉ cmd)
  | _ => false

/-- An event is a file copy. -/
def isCopyEvent : Event → Bool
  | Event.copy _ _ => true
  | _ => false

/-- The mutable state of `main`'s for-loop: `success_count`, `failed_configs`
and `prev_target`, plus the accumulated trace of build events (the
observable effects of the `build_target` calls made so far). -/
structure LoopState where
  success_count : Nat
  failed_configs : List String
  prev_target : Option String
  events : List Event
deriving DecidableEq, Repr

/-- Loop state before the first iteration: `success_count = 0`,
`failed_configs = []`, `prev_target = None`. -/
def initLoopState : LoopState := ⟨0, [], none, []⟩

/-- One iteration body of `main`'s loop, given the result `r` of
`build_target` for config `c`: increment the success count or append the
config's name to the failed list, and set `prev_target = config['target']`
unconditionally. -/
def loop_step (r : List Event × Bool) (c : HwConfig) (s : LoopState) : LoopState :=
  { success_count := if r.2 then s.success_count + 1 else s.success_count
  , failed_configs := if r.2 then s.failed_configs else s.failed_configs ++ [c.name]
  , prev_target := some c.target
  , events := s.events ++ r.1 }

/-- The `for idx, config in enumerate(configs, start=1)` loop of `main`:
each config is built with the current `prev_target` and the loop state
updated by `loop_step`. Successive `build_target` calls observe successive
worlds `worlds i` (the filesystem and command results at iteration `i`). -/
def main_loop (worlds : Nat → World) (od : String) :
    List HwConfig → Nat → LoopState → LoopState
  | [], _, s => s
  | c :: cs, i, s =>
      main_loop worlds od cs (i + 1)
        (loop_step (build_target c od s.prev_target (worlds i)) c s)

/-- Specification-side restatement: the list pairing every config with the
outcome of its `build_target` call, in processing order, with `prev_target`
threaded through as configuration history. Used to compare `main_loop`'s
aggregates against one-outcome-per-config. -/
def run_outcomes (worlds : Nat → World) (od : String) :
    List HwConfig → Nat → Option String → List (HwConfig × Bool)
  | [], _, _ => []
  | c :: cs, i, p =>
      (c, (build_target c od p (worlds i)).2) ::
        run_outcomes worlds od cs (i + 1) (some c.target)

/-- Constant `output_dir = "build_output"` in `main`. -/
def output_dir : String := "build_output"

/-- Observable outcome of a whole run of `main`: the `sys.exit` code, the
summary counters, the failed-config names, and the trace of build events. -/
structure RunResult where
  exit_code : Nat
  success_count : Nat
  total : Nat
  failed_configs : List String
  events : List Event
deriving Repr

/-- Embedding of `main`. `hwconf_exists` abstracts
`os.path.exists("main/hwconf")`; `files` are the candidate header files as
read; `interrupt_at = some k` means a `KeyboardInterrupt` is raised while
processing the config at 0-based position `k` (so configs `0..k-1` completed
and the interrupt handler exits with code 1); `interrupt_at = none` (or `k`
past the end) means the run is never interrupted. A missing root directory
exits 1 before discovery; otherwise the exit code is 0 exactly when the
failed list is empty. -/
def main_run (hwconf_exists : Bool) (files : List (String × FileRead))
    (worlds : Nat → World) (interrupt_at : Option Nat) : RunResult :=
  if hwconf_exists = false then
    ⟨1, 0, 0, [], []⟩
  else
    let configs := get_hw_configs files
    let total := configs.length
    let interrupted : Bool :=
      match interrupt_at with
      | some k => decide (k < total)
      | none => false
    let processed :=
      match interrupt_at with
      | some k => configs.take k
      | none => configs
    let s := main_loop worlds output_dir processed 1 initLoopState
    if interrupted then
      ⟨1, s.success_count, total, s.failed_configs, s.events⟩
    else
      ⟨if s.failed_configs.isEmpty then 0 else 1,
       s.success_count, total, s.failed_configs, s.events⟩

/-- An operation `clear_status` performs, in order: setting the spinner's
stop event (`_spinner_stop.set()`), joining the spinner thread (never
present in the source), writing a string to stdout, flushing stdout. -/
inductive TermOp where
  | setStopEvent
  | joinSpinner
  | write (s : String)
  | flush
deriving DecidableEq, Repr

/-- The ANSI escape character `\033`. -/
def ESC : String := "\x1b"

/-- Embedding of `clear_status` as the ordered list of operations it
performs: set the stop event; then, unless stdout is not a tty, write the
teardown escape sequence (reset scroll region, move to last row, clear it,
newline) and flush. There is no join of the spinner thread anywhere. -/
def clear_status (isatty : Bool) (rows : Nat) : List TermOp :=
  TermOp.setStopEvent ::
    (if isatty = false then []
     else
       [TermOp.write (ESC ++ "[r" ++ ESC ++ "[" ++ toString rows ++ ";1H" ++
          ESC ++ "[2K" ++ "\n"),
        TermOp.flush])

/-! Helper lemmas about the command argument vectors. -/

/-- No `-DIDF_TARGET=` flag equals the `set-target` subcommand word. -/
theorem idf_flag_ne (s : String) : ("-DIDF_TARGET=" ++ s) ≠ "set-target" := by
  intro h
  have h2 := congrArg String.length h
  rw [String.length_append] at h2
  have e1 : ("-DIDF_TARGET=" : String).length = 13 := by decide
  have e2 : ("set-target" : String).length = 10 := by decide
  omega

/-- No `-DHW_NAME=` flag equals the `set-target` subcommand word. -/
theorem hw_flag_ne (s : String) : ("-DHW_NAME=" ++ s) ≠ "set-target" := by
  intro h
  have h2 := congrArg String.length h
  rw [String.length_append] at h2
  have e1 : ("-DHW_NAME=" : String).length = 10 := by decide
  have e2 : ("set-target" : String).length = 10 := by decide
  have hs : s.length = 0 := by omega
  have hs2 : s = "" := by
    cases s with
    | mk data => simp [String.length] at hs; simp [hs]
  subst hs2
  revert h
  decide

/-- The `set-target` word does not occur in the base argv. -/
theorem set_target_not_mem_base (c : HwConfig) (fresh : Bool) :
    "set-target" ∉ cmd_base c fresh := by
  have h1 := idf_flag_ne c.target
  have h2 := hw_flag_ne c.name
  cases fresh
  · simp [cmd_base, build_dir]
    exact fun h => h2 h.symm
  · simp [cmd_base, build_dir]
    exact ⟨fun h => h1 h.symm, fun h => h2 h.symm⟩

/-- The `set-target` word does not occur in a build command's argv. -/
theorem set_target_not_mem_build (c : HwConfig) (fresh : Bool) :
    "set-target" ∉ cmd_base c fresh ++ ["build"] := by
  simp [set_target_not_mem_base]

/-- A build command is classified as a build command. -/
theorem isBuildCmd_build (c : HwConfig) (fresh : Bool) :
    isBuildCmd (Event.run (cmd_base c fresh ++ ["build"])) = true := by
  simp [isBuildCmd, set_target_not_mem_base]

/-- A build command is not classified as a re-target command. -/
theorem isRetargetCmd_build (c : HwConfig) (fresh : Bool) :
    isRetargetCmd (Event.run (cmd_base c fresh ++ ["build"])) = false := by
  simp [isRetargetCmd, set_target_not_mem_base]

/-- A `set-target` command is classified as a re-target command. -/
theorem isRetargetCmd_st (c : HwConfig) (fresh : Bool) :
    isRetargetCmd (Event.run (cmd_base c fresh ++ ["set-target", c.target])) = true := by
  simp [isRetargetCmd]

/-- A `set-target` command is not classified as a build command. -/
theorem isBuildCmd_st (c : HwConfig) (fresh : Bool) :
    isBuildCmd (Event.run (cmd_base c fresh ++ ["set-target", c.target])) = false := by
  simp [isBuildCmd]

/-- Every event produced by the artifact copy block is a copy event. -/
theorem copy_artifacts_all_copies (w : World) (od n : String) :
    ∀ e ∈ (copy_artifacts w od n).1, isCopyEvent e = true := by
  unfold copy_artifacts
  split
  · simp
  · split
    · simp [isCopyEvent]
    · split <;> simp [isCopyEvent]

/-- Copy events are neither re-target nor build commands. -/
theorem copy_not_cmd (e : Event) (h : isCopyEvent e = true) :
    isRetargetCmd e = false ∧ isBuildCmd e = false := by
  cases e with
  | run cmd => simp [isCopyEvent] at h
  | copy s d => exact ⟨rfl, rfl⟩

/-- The artifact copy block contributes no re-target commands. -/
theorem copy_artifacts_countP_retarget (w : World) (od n : String) :
    (copy_artifacts w od n).1.countP isRetargetCmd = 0 := by
  rw [List.countP_eq_zero]
  intro e he
  have := (copy_not_cmd e (copy_artifacts_all_copies w od n e he)).1
  simp [this]

/-- C1: a `build_target` call issues a re-target (`set-target`) command iff
the build directory is not fresh and the previous target differs from the
config's target (exactly one such command in that case, none otherwise);
all re-target commands in the trace occur strictly before any build command;
a fresh directory starts with the combined configure-with-target build
command; a stale directory with unchanged target starts directly with the
build command; a stale directory with changed target starts with the
re-target command. -/
theorem build_target_retarget_policy (c : HwConfig) (od : String)
    (p : Option String) (w : World) :
    ((build_target c od p w).1.countP isRetargetCmd
        = if is_fresh w = false ∧ p ≠ some c.target then 1 else 0)
    ∧ ((build_target c od p w).1.countP isRetargetCmd
        = ((build_target c od p w).1.takeWhile
            (fun e => !(isBuildCmd e))).countP isRetargetCmd)
    ∧ (is_fresh w = true →
        (build_target c od p w).1.head?
          = some (Event.run (cmd_base c true ++ ["build"])))
    ∧ (is_fresh w = false → p = some c.target →
        (build_target c od p w).1.head?
          = some (Event.run (cmd_base c false ++ ["build"])))
    ∧ (is_fresh w = false → p ≠ some c.target →
        (build_target c od p w).1.head?
          = some (Event.run (cmd_base c false ++ ["set-target", c.target]))) := by
  have hcopy := copy_artifacts_countP_retarget w od c.name
  have hcopyE := copy_artifacts_all_copies w od c.name
  unfold build_target
  by_cases hc : is_fresh w = false ∧ p ≠ some c.target
  · rw [if_pos hc, if_pos hc]
    obtain ⟨hfresh, hne⟩ := hc
    rw [hfresh]
    by_cases hst :
        w.exitCode (cmd_base c false ++ ["set-target", c.target]) != 0
    · simp [hst, List.countP_cons, isRetargetCmd_st, isBuildCmd_st,
        List.takeWhile_cons, hfresh, hne]
    · simp only [hst, if_false, Bool.false_eq_true]
      by_cases hb : w.exitCode (cmd_base c false ++ ["build"]) == 0
      · simp [hb, List.countP_append, List.countP_cons, isRetargetCmd_st,
          isRetargetCmd_build, isBuildCmd_st, isBuildCmd_build,
          List.takeWhile_cons, hcopy, hfresh, hne]
      · simp [hb, List.countP_cons, isRetargetCmd_st, isRetargetCmd_build,
          isBuildCmd_st, isBuildCmd_build, List.takeWhile_cons, hfresh, hne]
  · rw [if_neg hc, if_neg hc]
    have hcases := not_and_or.mp hc
    by_cases hb : w.exitCode (cmd_base c (is_fresh w) ++ ["build"]) == 0
    · simp only [hb, if_true]
      refine ⟨?_, ?_, ?_, ?_, ?_⟩
      · simp [List.countP_append, List.countP_cons, isRetargetCmd_build, hcopy]
      · simp [List.countP_append, List.countP_cons, isRetargetCmd_build,
          isBuildCmd_build, List.takeWhile_cons, hcopy]
      · intro hf; rw [hf]; simp
      · intro hf _; rw [hf]; simp
      · intro hf hne; exact absurd ⟨hf, hne⟩ hc
    · simp only [hb, if_false, Bool.false_eq_true]
      refine ⟨?_, ?_, ?_, ?_, ?_⟩
      · simp [List.countP_cons, isRetargetCmd_build]
      · simp [List.countP_cons, isRetargetCmd_build, isBuildCmd_build,
          List.takeWhile_cons]
      · intro hf; rw [hf]; simp
      · intro hf _; rw [hf]; simp
      · intro hf hne; exact absurd ⟨hf, hne⟩ hc

/-- Witness for C1: with an existing cache and a different previous target,
the trace starts with the re-target command. -/
theorem build_target_retarget_policy_witness :
    (build_target ⟨"A", "esp32c3", "f.h"⟩ "build_output" (some "esp32s3")
        ⟨fun _ => 0, fun _ => true⟩).1.head?
      = some (Event.run (cmd_base ⟨"A", "esp32c3", "f.h"⟩ false
          ++ ["set-target", "esp32c3"])) :=
  (build_target_retarget_policy ⟨"A", "esp32c3", "f.h"⟩ "build_output"
      (some "esp32s3") ⟨fun _ => 0, fun _ => true⟩).2.2.2.2
    (by decide) (by decide)

/-- The boolean outcome of the artifact copy block: it completes exactly when
all three artifacts exist. -/
theorem copy_artifacts_snd (w : World) (od n : String) :
    (copy_artifacts w od n).2
      = (w.fileExists src_bin
          && (w.fileExists src_boot && w.fileExists src_pt)) := by
  unfold copy_artifacts
  split
  · simp_all
  · split
    · simp_all
    · split <;> simp_all

/-- If `build_target` reports success, the copy block completed. -/
theorem build_target_success_imp_copy (c : HwConfig) (od : String)
    (p : Option String) (w : World) (h : (build_target c od p w).2 = true) :
    (copy_artifacts w od c.name).2 = true := by
  simp only [build_target] at h
  split_ifs at h <;> simp_all

/-- C2: a config whose build command exits 0 but for which any of the three
expected artifacts (primary image, bootloader, partition table) is missing
from the work directory has outcome failure, not success. -/
theorem build_success_requires_artifacts (c : HwConfig) (od : String)
    (p : Option String) (w : World)
    (hbuild : w.exitCode (cmd_base c (is_fresh w) ++ ["build"]) = 0)
    (hmiss : w.fileExists src_bin = false ∨ w.fileExists src_boot = false
      ∨ w.fileExists src_pt = false) :
    (build_target c od p w).2 = false := by
  cases hb : (build_target c od p w).2
  · rfl
  · have h2 := build_target_success_imp_copy c od p w hb
    rw [copy_artifacts_snd] at h2
    rcases hmiss with hm | hm | hm <;> simp [hm] at h2

/-- Witness for C2: every command exits 0 but no file exists, so the build
fails on the missing primary image. -/
theorem build_success_requires_artifacts_witness :
    (build_target ⟨"A", "esp32c3", "f.h"⟩ "build_output" none
        ⟨fun _ => 0, fun _ => false⟩).2 = false :=
  build_success_requires_artifacts ⟨"A", "esp32c3", "f.h"⟩ "build_output" none
    ⟨fun _ => 0, fun _ => false⟩ (by decide) (Or.inl (by decide))

/-- When the build command ran (it is in the trace) and exited 0, the copy
events of the `build_target` trace are exactly those of the copy block, and
the outcome is the copy block's outcome. -/
theorem build_target_copy_phase (c : HwConfig) (od : String)
    (p : Option String) (w : World)
    (hbuild : w.exitCode (cmd_base c (is_fresh w) ++ ["build"]) = 0)
    (hrun : Event.run (cmd_base c (is_fresh w) ++ ["build"])
      ∈ (build_target c od p w).1) :
    (build_target c od p w).1.filter isCopyEvent = (copy_artifacts w od c.name).1
    ∧ (build_target c od p w).2 = (copy_artifacts w od c.name).2 := by
  have hall := copy_artifacts_all_copies w od c.name
  have hfilter : (copy_artifacts w od c.name).1.filter isCopyEvent
      = (copy_artifacts w od c.name).1 := List.filter_eq_self.mpr hall
  unfold build_target at hrun ⊢
  by_cases hc : is_fresh w = false ∧ p ≠ some c.target
  · rw [if_pos hc] at hrun ⊢
    by_cases hst :
        w.exitCode (cmd_base c (is_fresh w) ++ ["set-target", c.target]) != 0
    · rw [if_pos hst] at hrun
      exfalso
      simp only [List.mem_singleton] at hrun
      have := congrArg List.length (Event.run.inj hrun)
      simp at this
    · rw [if_neg hst] at hrun ⊢
      simp only [hbuild] at hrun ⊢
      simp [List.filter_cons, isCopyEvent, hfilter]
  · rw [if_neg hc] at hrun ⊢
    simp only [hbuild] at hrun ⊢
    simp [List.filter_cons, isCopyEvent, hfilter]

/-- Counterexample to C3: build exits 0, the primary image exists but the
bootloader does not; verification fails, yet the primary image has already
been copied into the config's output subdirectory. -/
theorem copy_not_atomic_counterexample :
    ((build_target ⟨"A", "esp32c3", "f.h"⟩ "build_output" none
        ⟨fun _ => 0, fun f => f == src_bin⟩).2 = false)
    ∧ (Event.copy src_bin
          (path_join (path_join "build_output" "A") "vesc_express.bin")
        ∈ (build_target ⟨"A", "esp32c3", "f.h"⟩ "build_output" none
            ⟨fun _ => 0, fun f => f == src_bin⟩).1) := by
  constructor
  · decide
  · decide

/-- C3 (amended): copying is interleaved with verification, not atomic.
When the build command ran and exited 0, the artifacts strictly before the
first missing one (in the order image, bootloader, partition table) have
already been copied into the config's output subdirectory at the moment
verification fails. -/
theorem copy_interleaved_with_verification (c : HwConfig) (od : String)
    (p : Option String) (w : World)
    (hbuild : w.exitCode (cmd_base c (is_fresh w) ++ ["build"]) = 0)
    (hrun : Event.run (cmd_base c (is_fresh w) ++ ["build"])
      ∈ (build_target c od p w).1) :
    (w.fileExists src_bin = false →
        (build_target c od p w).2 = false
        ∧ (build_target c od p w).1.filter isCopyEvent = [])
    ∧ (w.fileExists src_bin = true → w.fileExists src_boot = false →
        (build_target c od p w).2 = false
        ∧ (build_target c od p w).1.filter isCopyEvent
            = [Event.copy src_bin
                (path_join (path_join od c.name) "vesc_express.bin")])
    ∧ (w.fileExists src_bin = true → w.fileExists src_boot = true →
        w.fileExists src_pt = false →
        (build_target c od p w).2 = false
        ∧ (build_target c od p w).1.filter isCopyEvent
            = [Event.copy src_bin
                (path_join (path_join od c.name) "vesc_express.bin"),
               Event.copy src_boot
                (path_join (path_join od c.name) "bootloader.bin")]) := by
  obtain ⟨hf, hs⟩ := build_target_copy_phase c od p w hbuild hrun
  rw [hf, hs]
  refine ⟨?_, ?_, ?_⟩
  · intro h1
    unfold copy_artifacts
    simp [h1]
  · intro h1 h2
    unfold copy_artifacts
    simp [h1, h2]
  · intro h1 h2 h3
    unfold copy_artifacts
    simp [h1, h2, h3]

/-- Witness for the amended C3: at the counterexample world, the outcome is
failure and exactly the primary image was copied. -/
theorem copy_interleaved_with_verification_witness :
    (build_target ⟨"A", "esp32c3", "f.h"⟩ "build_output" none
        ⟨fun _ => 0, fun f => f == src_bin⟩).2 = false
    ∧ (build_target ⟨"A", "esp32c3", "f.h"⟩ "build_output" none
        ⟨fun _ => 0, fun f => f == src_bin⟩).1.filter isCopyEvent
      = [Event.copy src_bin
          (path_join (path_join "build_output" "A") "vesc_express.bin")] :=
  (copy_interleaved_with_verification ⟨"A", "esp32c3", "f.h"⟩ "build_output"
      none ⟨fun _ => 0, fun f => f == src_bin⟩ (by decide)
      (by decide)).2.1 (by decide) (by decide)

instance : IsTotal HwConfig configLe :=
  ⟨fun a b => by
    unfold configLe
    rcases lt_trichotomy a.target b.target with h | h | h
    · exact Or.inl (Or.inl h)
    · rcases le_total a.name b.name with hn | hn
      · exact Or.inl (Or.inr ⟨h, hn⟩)
      · exact Or.inr (Or.inr ⟨h.symm, hn⟩)
    · exact Or.inr (Or.inl h)⟩

instance : IsTrans HwConfig configLe :=
  ⟨fun a b c hab hbc => by
    unfold configLe at hab hbc ⊢
    rcases hab with h1 | ⟨e1, n1⟩ <;> rcases hbc with h2 | ⟨e2, n2⟩
    · exact Or.inl (lt_trans h1 h2)
    · exact Or.inl (e2 ▸ h1)
    · exact Or.inl (e1 ▸ h2)
    · exact Or.inr ⟨e1.trans e2, le_trans n1 n2⟩⟩

/-- C4: the discovered config list is sorted ascending by the pair
`(target, name)` under case-sensitive lexicographic string order, and among
configs with equal targets the names are ascending. -/
theorem get_hw_configs_sorted (files : List (String × FileRead)) :
    List.Sorted configLe (get_hw_configs files)
    ∧ List.Pairwise (fun a b => a.target = b.target → a.name ≤ b.name)
        (get_hw_configs files) := by
  have hs : List.Sorted configLe (get_hw_configs files) :=
    List.sorted_insertionSort configLe (files.filterMap parse_entry)
  refine ⟨hs, List.Pairwise.imp ?_ hs⟩
  intro a b hab heq
  rcases hab with h | ⟨_, hn⟩
  · exact absurd (heq ▸ h) (lt_irrefl b.target)
  · exact hn

/-- The number of configs processed: success count plus failed count grows by
exactly one per config. -/
theorem main_loop_counts (worlds : Nat → World) (od : String)
    (cs : List HwConfig) (i : Nat) (s : LoopState) :
    (main_loop worlds od cs i s).success_count
        + (main_loop worlds od cs i s).failed_configs.length
      = s.success_count + s.failed_configs.length + cs.length := by
  induction cs generalizing i s with
  | nil => simp [main_loop]
  | cons c cs ih =>
      rw [main_loop, ih]
      unfold loop_step
      cases (build_target c od s.prev_target (worlds i)).2 <;> simp <;> omega

/-- After the loop, `prev_target` is the target of the last config processed
(or the initial value when no config was processed), whatever the worlds. -/
theorem main_loop_prev (worlds : Nat → World) (od : String)
    (cs : List HwConfig) (i : Nat) (s : LoopState) :
    (main_loop worlds od cs i s).prev_target
      = (match cs.getLast? with
         | some c => some c.target
         | none => s.prev_target) := by
  induction cs generalizing i s with
  | nil => simp [main_loop]
  | cons c cs ih =>
      rw [main_loop, ih]
      cases cs with
      | nil => simp [loop_step]
      | cons c2 cs2 =>
          cases hg : (c2 :: cs2).getLast? with
          | none => simp at hg
          | some c3 => simp [hg]

/-- C7: `prev_target` after the orchestrator loop equals the target of the
most recently processed config, and does not depend on the build outcomes
(two runs over arbitrary different worlds agree on it). -/
theorem prev_target_tracks_configuration (worlds worlds2 : Nat → World)
    (od : String) (cs : List HwConfig) (i j : Nat) (s : LoopState)
    (c : HwConfig) (h : cs.getLast? = some c) :
    (main_loop worlds od cs i s).prev_target = some c.target
    ∧ (main_loop worlds od cs i s).prev_target
        = (main_loop worlds2 od cs j s).prev_target := by
  rw [main_loop_prev, main_loop_prev, h]
  exact ⟨rfl, rfl⟩

/-- Witness for C7: one succeeding and one failing world yield the same
`prev_target`, the last config's target. -/
theorem prev_target_tracks_configuration_witness :
    (main_loop (fun _ => ⟨fun _ => 0, fun _ => false⟩) "build_output"
        [⟨"A", "esp32c3", "a.h"⟩, ⟨"B", "esp32s3", "b.h"⟩] 1
        initLoopState).prev_target = some "esp32s3"
    ∧ (main_loop (fun _ => ⟨fun _ => 0, fun _ => false⟩) "build_output"
        [⟨"A", "esp32c3", "a.h"⟩, ⟨"B", "esp32s3", "b.h"⟩] 1
        initLoopState).prev_target
      = (main_loop (fun _ => ⟨fun _ => 1, fun _ => true⟩) "build_output"
          [⟨"A", "esp32c3", "a.h"⟩, ⟨"B", "esp32s3", "b.h"⟩] 1
          initLoopState).prev_target :=
  prev_target_tracks_configuration (fun _ => ⟨fun _ => 0, fun _ => false⟩)
    (fun _ => ⟨fun _ => 1, fun _ => true⟩) "build_output"
    [⟨"A", "esp32c3", "a.h"⟩, ⟨"B", "esp32s3", "b.h"⟩] 1 1 initLoopState
    ⟨"B", "esp32s3", "b.h"⟩ (by decide)

/-- C5: the process exit code is 1 when the root config directory is missing
(with nothing attempted), 1 on interruption during the loop, and otherwise
0 exactly when the failed list is empty, equivalently exactly when every
discovered config succeeded. -/
theorem main_exit_codes (files : List (String × FileRead))
    (worlds : Nat → World) (iat : Option Nat) (k : Nat) :
    ((main_run false files worlds iat).exit_code = 1
      ∧ (main_run false files worlds iat).total = 0
      ∧ (main_run false files worlds iat).events = [])
    ∧ (k < (get_hw_configs files).length →
        (main_run true files worlds (some k)).exit_code = 1)
    ∧ ((main_run true files worlds none).exit_code
        = if (main_run true files worlds none).failed_configs = [] then 0 else 1)
    ∧ ((main_run true files worlds none).exit_code = 0
        ↔ (main_run true files worlds none).success_count
            = (main_run true files worlds none).total) := by
  have hcnt : (main_loop worlds output_dir (get_hw_configs files) 1
        initLoopState).success_count
      + (main_loop worlds output_dir (get_hw_configs files) 1
          initLoopState).failed_configs.length
      = (get_hw_configs files).length := by
    have h0 := main_loop_counts worlds output_dir (get_hw_configs files) 1
      initLoopState
    simpa [initLoopState] using h0
  refine ⟨⟨rfl, rfl, rfl⟩, ?_, ?_, ?_⟩
  · intro hk
    simp [main_run, hk]
  · simp only [main_run, if_neg (by simp : ¬(true = false))]
    by_cases he : (main_loop worlds output_dir (get_hw_configs files) 1
        initLoopState).failed_configs = [] <;>
      simp [he]
  · simp only [main_run, if_neg (by simp : ¬(true = false))]
    by_cases he : (main_loop worlds output_dir (get_hw_configs files) 1
        initLoopState).failed_configs = []
    · simp [he]
      rw [he] at hcnt
      simpa using hcnt
    · simp [he]
      intro hs
      rw [hs] at hcnt
      have hlen0 : (main_loop worlds output_dir (get_hw_configs files) 1
          initLoopState).failed_configs.length = 0 := by omega
      exact he (List.length_eq_zero.mp hlen0)

/-- Witness for C5: a one-config discovery interrupted at position 0 exits
with code 1. -/
theorem main_exit_codes_witness :
    (main_run true [("a.h", FileRead.ok (some "A") (some "esp32c3"))]
        (fun _ => ⟨fun _ => 0, fun _ => false⟩) (some 0)).exit_code = 1 :=
  (main_exit_codes [("a.h", FileRead.ok (some "A") (some "esp32c3"))]
      (fun _ => ⟨fun _ => 0, fun _ => false⟩) (some 0) 0).2.1 (by decide)

/-- C8: a candidate file whose name or target declaration matched the empty
string is excluded from discovery exactly as if the declaration were absent,
and the per-file filter accepts a file precisely when both extracted values
are present and non-empty. -/
theorem empty_declaration_excluded (f : String) (nm tm : Option String)
    (rest : List (String × FileRead)) :
    (get_hw_configs ((f, FileRead.ok (some "") tm) :: rest)
        = get_hw_configs ((f, FileRead.ok none tm) :: rest))
    ∧ (get_hw_configs ((f, FileRead.ok nm (some "")) :: rest)
        = get_hw_configs ((f, FileRead.ok nm none) :: rest))
    ∧ (∀ cfg : HwConfig,
        parse_entry (f, FileRead.ok nm tm) = some cfg
          ↔ ∃ n t, nm = some n ∧ ¬n = "" ∧ tm = some t ∧ ¬t = ""
              ∧ cfg = ⟨n, t, f⟩) := by
  refine ⟨?_, ?_, ?_⟩
  · simp [get_hw_configs, parse_entry, truthy]
  · cases nm <;> simp [get_hw_configs, parse_entry, truthy]
  · intro cfg
    cases nm with
    | none => simp [parse_entry, truthy]
    | some n =>
        cases tm with
        | none => simp [parse_entry, truthy]
        | some t =>
            by_cases hn : n = ""
            · subst hn; simp [parse_entry, truthy]
            · by_cases ht : t = ""
              · subst ht; simp [parse_entry, truthy]
              · simp only [parse_entry, truthy]
                rw [if_pos (by simp [hn, ht])]
                constructor
                · intro h
                  exact ⟨n, t, rfl, hn, rfl, ht, (Option.some.inj h).symm⟩
                · rintro ⟨n2, t2, hn2, hne2, ht2, hte2, hcfg⟩
                  obtain rfl := Option.some.inj hn2
                  obtain rfl := Option.some.inj ht2
                  simp [hcfg]

/-- Witness for C8: a file whose target matched the empty string is dropped,
like one with no target declaration at all. -/
theorem empty_declaration_excluded_witness :
    get_hw_configs [("a.h", FileRead.ok (some "A") (some ""))]
      = get_hw_configs [("a.h", FileRead.ok (some "A") none)] :=
  (empty_declaration_excluded "a.h" (some "A") (some "") []).2.1

/-- C9: when discovery yields no configs and the root directory exists, the
run performs no build (empty event trace), reports 0 succeeded of 0 with an
empty failed list, and exits 0. -/
theorem empty_discovery_run (files : List (String × FileRead))
    (worlds : Nat → World) (iat : Option Nat)
    (h : get_hw_configs files = []) :
    (main_run true files worlds iat).exit_code = 0
    ∧ (main_run true files worlds iat).success_count = 0
    ∧ (main_run true files worlds iat).total = 0
    ∧ (main_run true files worlds iat).failed_configs = []
    ∧ (main_run true files worlds iat).events = [] := by
  unfold main_run
  rw [h]
  cases iat <;> simp [main_loop, initLoopState]

/-- Witness for C9: the empty candidate list yields the empty discovery and
the 0/0 summary with exit code 0. -/
theorem empty_discovery_run_witness :
    (main_run true [] (fun _ => ⟨fun _ => 0, fun _ => false⟩) none).exit_code = 0
    ∧ (main_run true [] (fun _ => ⟨fun _ => 0, fun _ => false⟩)
        none).success_count = 0
    ∧ (main_run true [] (fun _ => ⟨fun _ => 0, fun _ => false⟩) none).total = 0
    ∧ (main_run true [] (fun _ => ⟨fun _ => 0, fun _ => false⟩)
        none).failed_configs = []
    ∧ (main_run true [] (fun _ => ⟨fun _ => 0, fun _ => false⟩)
        none).events = [] :=
  empty_discovery_run [] (fun _ => ⟨fun _ => 0, fun _ => false⟩) none (by decide)

/-- The loop aggregates agree with the one-outcome-per-config list
`run_outcomes`. -/
theorem main_loop_run_outcomes (worlds : Nat → World) (od : String)
    (cs : List HwConfig) (i : Nat) (s : LoopState) :
    (main_loop worlds od cs i s).success_count
        = s.success_count
          + ((run_outcomes worlds od cs i s.prev_target).filter
              (fun r => r.2)).length
    ∧ (main_loop worlds od cs i s).failed_configs
        = s.failed_configs
          ++ ((run_outcomes worlds od cs i s.prev_target).filter
              (fun r => !r.2)).map (fun r => r.1.name) := by
  induction cs generalizing i s with
  | nil => simp [main_loop, run_outcomes]
  | cons c cs ih =>
      rw [main_loop, run_outcomes]
      obtain ⟨ih1, ih2⟩ := ih (i + 1)
        (loop_step (build_target c od s.prev_target (worlds i)) c s)
      rw [ih1, ih2]
      cases hb : (build_target c od s.prev_target (worlds i)).2 <;>
        simp [loop_step, hb, List.filter_cons] <;> omega

/-- C10: at the end of an uninterrupted run each discovered config has
contributed exactly one outcome: `run_outcomes` has one entry per config,
the success count plus the number of failed names equals the number of
discovered configs, the success count is the number of successful outcomes,
and the failed list is exactly the names of the configs whose build returned
failure, in processing order. -/
theorem outcome_accounting (files : List (String × FileRead))
    (worlds : Nat → World) :
    (run_outcomes worlds output_dir (get_hw_configs files) 1 none).length
        = (get_hw_configs files).length
    ∧ (main_run true files worlds none).success_count
        + (main_run true files worlds none).failed_configs.length
      = (get_hw_configs files).length
    ∧ (main_run true files worlds none).success_count
        = ((run_outcomes worlds output_dir (get_hw_configs files) 1
            none).filter (fun r => r.2)).length
    ∧ (main_run true files worlds none).failed_configs
        = ((run_outcomes worlds output_dir (get_hw_configs files) 1
            none).filter (fun r => !r.2)).map (fun r => r.1.name) := by
  have hlen : ∀ (cs : List HwConfig) (i : Nat) (p : Option String),
      (run_outcomes worlds output_dir cs i p).length = cs.length := by
    intro cs
    induction cs with
    | nil => intro i p; rfl
    | cons c cs ih => intro i p; simp [run_outcomes, ih]
  have hcnt := main_loop_counts worlds output_dir (get_hw_configs files) 1
    initLoopState
  have hro := main_loop_run_outcomes worlds output_dir (get_hw_configs files)
    1 initLoopState
  simp only [initLoopState] at hcnt hro
  refine ⟨hlen _ 1 none, ?_, ?_, ?_⟩
  · simp only [main_run, if_neg (by simp : ¬(true = false))]
    simpa using hcnt
  · simp only [main_run, if_neg (by simp : ¬(true = false))]
    simpa using hro.1
  · simp only [main_run, if_neg (by simp : ¬(true = false))]
    simpa using hro.2

/-- C6: contrary to the claim, `clear_status` never joins the spinner
thread: it signals the stop event first and then immediately writes the
terminal-teardown escape sequence, with no join anywhere in its operation
trace. Evaluated at an interactive 24-row terminal. -/
theorem clear_status_no_join_before_teardown :
    TermOp.joinSpinner ∉ clear_status true 24
    ∧ (clear_status true 24).head? = some TermOp.setStopEvent
    ∧ TermOp.write (ESC ++ "[r" ++ ESC ++ "[" ++ toString 24 ++ ";1H" ++
        ESC ++ "[2K" ++ "\n") ∈ clear_status true 24 := by
  refine ⟨by decide, rfl, by decide⟩

end BuildAll
